import Mathlib

/-!
Verification of the CRAG (Corrective Retrieval-Augmented Generation) decision
pipeline of `app/services/crag.py` against its natural-language specification.

Shallow embedding conventions:
* Python floats carry only literal comparisons here (no arithmetic), so scores
  and thresholds are modelled as `ℚ`.
* The LLM structured-completion call together with `json.loads` and field
  extraction is modelled as a function `String → String → Option GraderFields`
  (prompt, system prompt ↦ parsed fields); `none` stands for any exception on
  that path (transport error, unparseable JSON, non-dict JSON, ill-typed
  fields) — exactly the failures caught by the `except Exception` handler in
  `evaluate_relevance`.
* The web-search client is `String → Nat → Except String (List WebResult)`
  (query, max_results ↦ results or raised exception); `execute_crag` contains
  no handler, so an `Except.error` propagates to its result.
* `datetime.utcnow()` timestamps and `loguru` logging are side effects with no
  bearing on any claim and are omitted from the records.
-/

/-- Modelled from the spec: `Chunk` of §3 (`app/models.py` is not part of the
sources; fields follow §3 and the uses in `crag.py` / `retrieval.py`):
`content`, opaque `metadata` (omitted — opaque to the core), similarity
`score`. -/
structure RetrievedChunk where
  content : String
  score : ℚ
deriving Repr, DecidableEq

/-- Modelled from the spec: `WebResult` of §3: `title`, `content`, optional
`source`; `generate_answer_with_crag` reads `title` and `content`. -/
structure WebResult where
  title : String
  content : String
  source : Option String
deriving Repr, DecidableEq

/-- Modelled from the spec: `RelevanceEvaluation` of §3 (`CRAGEvaluation` in
the code). The `evaluated_at` wall-clock timestamp is omitted. -/
structure CRAGEvaluation where
  relevance_score : ℚ
  relevance_label : String
  confidence : ℚ
  evaluation_method : String
  needs_web_search : Bool
deriving Repr, DecidableEq

/-- Modelled from the spec: `PipelineResult` of §3 (`CRAGResult` in the code):
`web_results` is `None` (here `none`) when no web search ran. -/
structure CRAGResult where
  used_web_search : Bool
  evaluation : CRAGEvaluation
  retrieved_chunks : List RetrievedChunk
  web_results : Option (List WebResult)
deriving Repr, DecidableEq

/-- The `Settings` class of `app/config.py`, field for field, with the
defaults given there (floats as exact rationals). -/
structure Settings where
  openai_api_key : String
  tavily_api_key : String
  qdrant_url : String := "http://localhost:6333"
  qdrant_api_key : Option String := none
  qdrant_collection_name : String := "crag_documents"
  embedding_model : String := "text-embedding-3-small"
  llm_model : String := "gpt-4o-mini"
  embedding_dimensions : Nat := 1536
  crag_relevance_threshold : ℚ := 7/10
  crag_ambiguous_threshold : ℚ := 1/2
  reflection_min_score : ℚ := 4/5
  max_reflection_retries : Nat := 2
  top_k_results : Nat := 5
  upload_dir : String := "uploads"
  max_file_size : Nat := 50 * 1024 * 1024
deriving Repr, DecidableEq

/-- The fields `evaluate_relevance` reads from the grader's JSON object via
`eval_data.get(...)`: each is `none` when the key is missing. -/
structure GraderFields where
  relevance_score : Option ℚ
  relevance_label : Option String
  confidence : Option ℚ
deriving Repr, DecidableEq

/-- The condensed grading context of `crag.py` lines 24–27: each chunk's
content truncated to its first 300 characters, labelled `Chunk i`, joined by
blank lines. -/
def gradingContext (retrieved_chunks : List RetrievedChunk) : String :=
  String.intercalate "\n\n" (retrieved_chunks.enum.map (fun p =>
    "Chunk " ++ toString (p.1 + 1) ++ ": " ++ p.2.content.take 300))

/-- The grading prompt f-string of `crag.py` lines 29–48. -/
def gradingPrompt (query : String) (retrieved_chunks : List RetrievedChunk) : String :=
  "Evaluate if the following retrieved documents are relevant to answer the query.\n\nQuery: "
    ++ query
    ++ "\n\nRetrieved Documents:\n"
    ++ gradingContext retrieved_chunks
    ++ "\n\nProvide evaluation as JSON:\n\x7b\n    \"relevance_score\": <float 0.0-1.0>,\n    \"relevance_label\": \"<relevant|ambiguous|irrelevant>\",\n    \"confidence\": <float 0.0-1.0>,\n    \"reasoning\": \"<brief explanation>\"\n\x7d\n\nScoring guide:\n- relevant (0.7-1.0): Documents directly answer the query\n- ambiguous (0.4-0.7): Partial information, may need web search\n- irrelevant (0.0-0.4): Documents don't help answer the query\n"

/-- The grader system prompt of `crag.py` line 50. -/
def graderSystemPrompt : String :=
  "You are a relevance evaluator for RAG systems. Always respond with valid JSON."

/-- The fallback evaluation built in the `except` branch of
`evaluate_relevance` (`crag.py` lines 78–85). -/
def fallbackEvaluation : CRAGEvaluation :=
  { relevance_score := 1/2
    relevance_label := "ambiguous"
    confidence := 1/2
    evaluation_method := "llm_grader"
    needs_web_search := true }

/-- `CRAGService.evaluate_relevance` (`crag.py` lines 16–85).
`generate_with_json` stands for `self.llm.generate_with_json` composed with
`json.loads` and typed field extraction; `none` is any exception in the `try`
block, answered by the fallback of the `except` branch. -/
def evaluate_relevance (settings : Settings)
    (generate_with_json : String → String → Option GraderFields)
    (query : String) (retrieved_chunks : List RetrievedChunk) : CRAGEvaluation :=
  match generate_with_json (gradingPrompt query retrieved_chunks) graderSystemPrompt with
  | some eval_data =>
      let relevance_score := eval_data.relevance_score.getD (1/2)
      let relevance_label := eval_data.relevance_label.getD "ambiguous"
      let confidence := eval_data.confidence.getD (7/10)
      let needs_web_search :=
        relevance_label == "irrelevant" ||
          (relevance_label == "ambiguous" &&
            decide (relevance_score < settings.crag_ambiguous_threshold))
      { relevance_score := relevance_score
        relevance_label := relevance_label
        confidence := confidence
        evaluation_method := "llm_grader"
        needs_web_search := needs_web_search }
  | none => fallbackEvaluation

/-- The routing decision exactly as the spec's §4.1 writes it:
`needs_web_search = (label == "irrelevant") OR (label == "ambiguous" AND
score < ambiguous_threshold)`. Stated separately from `evaluate_relevance`
so the code's behaviour can be compared against the spec's rule. -/
def routingRule (label : String) (score thr : ℚ) : Bool :=
  label == "irrelevant" || (label == "ambiguous" && decide (score < thr))

/-- A `Settings` value with both required API keys supplied and every other
field left at its `config.py` default. -/
def testSettings : Settings :=
  { openai_api_key := "k", tavily_api_key := "k" }

example : testSettings.crag_ambiguous_threshold = 1/2 := rfl
example : routingRule "ambiguous" (9/20) (1/2) = true := by norm_num [routingRule]
example : routingRule "ambiguous" (3/5) (1/2) = false := by
  norm_num [routingRule]
  decide
example : routingRule "ambiguous" (1/2) (1/2) = false := by
  norm_num [routingRule]
  decide
example :
    evaluate_relevance testSettings (fun _ _ => none) "q" [] = fallbackEvaluation := rfl

/-- `CRAGService.execute_crag` (`crag.py` lines 87–113). `web_search` stands
for `self.web_search.search(query, max_results)`; an `Except.error` models an
exception raised by the client, which the method does not catch. The literal
`3` is the hardcoded `max_results=3` of line 105. -/
def execute_crag (settings : Settings)
    (generate_with_json : String → String → Option GraderFields)
    (web_search : String → Nat → Except String (List WebResult))
    (query : String) (retrieved_chunks : List RetrievedChunk) :
    Except String CRAGResult :=
  let evaluation := evaluate_relevance settings generate_with_json query retrieved_chunks
  if evaluation.needs_web_search then
    match web_search query 3 with
    | Except.error e => Except.error e
    | Except.ok ws =>
        Except.ok { used_web_search := true
                    evaluation := evaluation
                    retrieved_chunks := retrieved_chunks
                    web_results := some ws }
  else
    Except.ok { used_web_search := false
                evaluation := evaluation
                retrieved_chunks := retrieved_chunks
                web_results := none }

/-- Pythonic truthiness of the `web_results` field: `None` and the empty list
are falsy, a non-empty list is truthy (`if crag_result.web_results:` in
`crag.py` lines 127 and 137). -/
def truthyWebResults : Option (List WebResult) → Bool
  | none => false
  | some ws => !ws.isEmpty

/-- The `=== Web Search Results ===` block of `crag.py` lines 128–130
(1-based `enumerate`). -/
def webSearchSection (ws : List WebResult) : List String :=
  "=== Web Search Results ===" ::
    ws.enum.map (fun p =>
      "\nSource " ++ toString (p.1 + 1) ++ " (" ++ p.2.title ++ "):\n" ++ p.2.content)

/-- The `=== Retrieved Documents ===` block of `crag.py` lines 133–135. -/
def retrievedDocsSection (chunks : List RetrievedChunk) : List String :=
  "=== Retrieved Documents ===" ::
    chunks.enum.map (fun p =>
      "\nDocument " ++ toString (p.1 + 1) ++ ":\n" ++ p.2.content)

/-- The `=== Additional Web Information ===` block of `crag.py` lines
138–140. -/
def additionalWebSection (ws : List WebResult) : List String :=
  "\n\n=== Additional Web Information ===" ::
    ws.enum.map (fun p =>
      "\nWeb Source " ++ toString (p.1 + 1) ++ ":\n" ++ p.2.content)

/-- The `context_parts` list built by `generate_answer_with_crag`
(`crag.py` lines 123–141). -/
def contextParts (crag_result : CRAGResult) : List String :=
  if crag_result.evaluation.relevance_label == "irrelevant" then
    if truthyWebResults crag_result.web_results then
      webSearchSection (crag_result.web_results.getD [])
    else []
  else
    retrievedDocsSection crag_result.retrieved_chunks ++
      (if crag_result.used_web_search && truthyWebResults crag_result.web_results then
        additionalWebSection (crag_result.web_results.getD [])
      else [])

/-- `context = "\n".join(context_parts)` (`crag.py` line 142). -/
def assembledContext (crag_result : CRAGResult) : String :=
  String.intercalate "\n" (contextParts crag_result)

/-- The synthesis prompt f-string of `crag.py` lines 144–151. -/
def answerPrompt (query : String) (crag_result : CRAGResult) : String :=
  "Answer the following query using the provided context.\n\nQuery: "
    ++ query
    ++ "\n\nContext:\n"
    ++ assembledContext crag_result
    ++ "\n\nProvide a clear, accurate answer based on the context. If the context doesn't fully answer the query, acknowledge what's missing."

/-- The synthesizer system prompt of `crag.py` line 153. -/
def answerSystemPrompt : String :=
  "You are a helpful assistant that answers questions based on provided context."

/-- `CRAGService.generate_answer_with_crag` (`crag.py` lines 115–155).
`generate` stands for `self.llm.generate(prompt, system_prompt, max_tokens)`;
the bound `500` is the literal `max_tokens=500` of line 155. -/
def generate_answer_with_crag (generate : String → String → Nat → String)
    (query : String) (crag_result : CRAGResult) : String :=
  generate (answerPrompt query crag_result) answerSystemPrompt 500

/-- A grader double that always parses to label `ambiguous` with score 0.45
(9/20) and confidence 0.9. -/
def graderAmbiguous45 : String → String → Option GraderFields :=
  fun _ _ => some
    { relevance_score := some (9/20)
      relevance_label := some "ambiguous"
      confidence := some (9/10) }

/-- A grader double that always parses to label `ambiguous` with score 0.6
(3/5) and confidence 0.9. -/
def graderAmbiguous60 : String → String → Option GraderFields :=
  fun _ _ => some
    { relevance_score := some (3/5)
      relevance_label := some "ambiguous"
      confidence := some (9/10) }

/-- A grader double whose call always fails (transport error or unparseable
output). -/
def graderFail : String → String → Option GraderFields :=
  fun _ _ => none

/-- A web-search double that records the `max_results` bound it was invoked
with inside the content of its single result. -/
def boundProbeSearch : String → Nat → Except String (List WebResult) :=
  fun _ n => Except.ok [{ title := "probe", content := toString n, source := none }]

/-- On a successfully parsed grader response, `evaluate_relevance` returns the
record built on `crag.py` lines 56–73, with `needs_web_search` given by the
routing expression of lines 61–64 (which coincides with `routingRule`). -/
theorem evaluate_relevance_some (settings : Settings)
    (generate_with_json : String → String → Option GraderFields)
    (query : String) (retrieved_chunks : List RetrievedChunk) (f : GraderFields)
    (h : generate_with_json (gradingPrompt query retrieved_chunks) graderSystemPrompt = some f) :
    evaluate_relevance settings generate_with_json query retrieved_chunks =
      { relevance_score := f.relevance_score.getD (1/2)
        relevance_label := f.relevance_label.getD "ambiguous"
        confidence := f.confidence.getD (7/10)
        evaluation_method := "llm_grader"
        needs_web_search :=
          routingRule (f.relevance_label.getD "ambiguous") (f.relevance_score.getD (1/2))
            settings.crag_ambiguous_threshold } := by
  unfold evaluate_relevance routingRule
  rw [h]

/-- On a failed grader call, `evaluate_relevance` returns the fallback of
`crag.py` lines 78–85. -/
theorem evaluate_relevance_none (settings : Settings)
    (generate_with_json : String → String → Option GraderFields)
    (query : String) (retrieved_chunks : List RetrievedChunk)
    (h : generate_with_json (gradingPrompt query retrieved_chunks) graderSystemPrompt = none) :
    evaluate_relevance settings generate_with_json query retrieved_chunks = fallbackEvaluation := by
  unfold evaluate_relevance
  rw [h]

/-- The spec's routing rule, read at the propositional level. -/
theorem routingRule_eq_true_iff (label : String) (score thr : ℚ) :
    routingRule label score thr = true ↔
      label = "irrelevant" ∨ (label = "ambiguous" ∧ score < thr) := by
  unfold routingRule
  simp [Bool.or_eq_true, Bool.and_eq_true, beq_iff_eq, decide_eq_true_eq]

/-- C1: on a successfully parsed grader response, `needs_web_search` is true
iff the label is `irrelevant`, or the label is `ambiguous` and the score is
below the ambiguity threshold; in particular label `relevant` always routes
away from web search and label `irrelevant` always routes to it, and with the
default threshold 0.5 an `ambiguous` score of 0.45 routes to web search while
0.6 does not. -/
theorem needs_web_search_matches_routing_rule (settings : Settings)
    (generate_with_json : String → String → Option GraderFields)
    (query : String) (retrieved_chunks : List RetrievedChunk) (f : GraderFields)
    (h : generate_with_json (gradingPrompt query retrieved_chunks) graderSystemPrompt = some f) :
    ((evaluate_relevance settings generate_with_json query retrieved_chunks).needs_web_search = true ↔
      ((evaluate_relevance settings generate_with_json query retrieved_chunks).relevance_label = "irrelevant" ∨
        ((evaluate_relevance settings generate_with_json query retrieved_chunks).relevance_label = "ambiguous" ∧
          (evaluate_relevance settings generate_with_json query retrieved_chunks).relevance_score <
            settings.crag_ambiguous_threshold))) ∧
    ((evaluate_relevance settings generate_with_json query retrieved_chunks).relevance_label = "relevant" →
      (evaluate_relevance settings generate_with_json query retrieved_chunks).needs_web_search = false) ∧
    ((evaluate_relevance settings generate_with_json query retrieved_chunks).relevance_label = "irrelevant" →
      (evaluate_relevance settings generate_with_json query retrieved_chunks).needs_web_search = true) ∧
    (evaluate_relevance testSettings graderAmbiguous45 "q" []).needs_web_search = true ∧
    (evaluate_relevance testSettings graderAmbiguous60 "q" []).needs_web_search = false := by
  have he := evaluate_relevance_some settings generate_with_json query retrieved_chunks f h
  have h45 := evaluate_relevance_some testSettings graderAmbiguous45 "q" []
    { relevance_score := some (9/20), relevance_label := some "ambiguous",
      confidence := some (9/10) } rfl
  have h60 := evaluate_relevance_some testSettings graderAmbiguous60 "q" []
    { relevance_score := some (3/5), relevance_label := some "ambiguous",
      confidence := some (9/10) } rfl
  rw [he, h45, h60]
  dsimp only
  refine ⟨routingRule_eq_true_iff _ _ _, ?_, ?_, ?_, ?_⟩
  · intro hl
    rw [hl]
    have e1 : ("relevant" == "irrelevant") = false := by decide
    have e2 : ("relevant" == "ambiguous") = false := by decide
    simp [routingRule, e1, e2]
  · intro hl
    rw [hl]
    have e1 : ("irrelevant" == "irrelevant") = true := by decide
    simp [routingRule, e1]
  · show routingRule "ambiguous" (9/20) testSettings.crag_ambiguous_threshold = true
    have ht : testSettings.crag_ambiguous_threshold = 1/2 := rfl
    rw [ht]
    norm_num [routingRule]
  · show routingRule "ambiguous" (3/5) testSettings.crag_ambiguous_threshold = false
    have ht : testSettings.crag_ambiguous_threshold = 1/2 := rfl
    rw [ht]
    norm_num [routingRule]
    decide

/-- Witness for C1 at the ambiguous-score-0.45 grader double. -/
theorem needs_web_search_matches_routing_rule_witness :
    ((evaluate_relevance testSettings graderAmbiguous45 "q" []).needs_web_search = true ↔
      ((evaluate_relevance testSettings graderAmbiguous45 "q" []).relevance_label = "irrelevant" ∨
        ((evaluate_relevance testSettings graderAmbiguous45 "q" []).relevance_label = "ambiguous" ∧
          (evaluate_relevance testSettings graderAmbiguous45 "q" []).relevance_score <
            testSettings.crag_ambiguous_threshold))) ∧
    ((evaluate_relevance testSettings graderAmbiguous45 "q" []).relevance_label = "relevant" →
      (evaluate_relevance testSettings graderAmbiguous45 "q" []).needs_web_search = false) ∧
    ((evaluate_relevance testSettings graderAmbiguous45 "q" []).relevance_label = "irrelevant" →
      (evaluate_relevance testSettings graderAmbiguous45 "q" []).needs_web_search = true) ∧
    (evaluate_relevance testSettings graderAmbiguous45 "q" []).needs_web_search = true ∧
    (evaluate_relevance testSettings graderAmbiguous60 "q" []).needs_web_search = false :=
  needs_web_search_matches_routing_rule testSettings graderAmbiguous45 "q" []
    { relevance_score := some (9/20), relevance_label := some "ambiguous",
      confidence := some (9/10) } rfl

/-- C2 counterexample: the fallback path breaks the claimed invariant. With
the default threshold 0.5, the fallback evaluation produced on a failed
grader call carries label `ambiguous` and score 0.5, for which the routing
rule of §4.1 yields `false` (0.5 < 0.5 fails), yet its `needs_web_search` is
`true`. -/
theorem fallback_breaks_pure_routing_invariant :
    (evaluate_relevance testSettings graderFail "q" []).needs_web_search = true ∧
    routingRule (evaluate_relevance testSettings graderFail "q" []).relevance_label
      (evaluate_relevance testSettings graderFail "q" []).relevance_score
      testSettings.crag_ambiguous_threshold = false ∧
    (evaluate_relevance testSettings graderFail "q" []).needs_web_search ≠
      routingRule (evaluate_relevance testSettings graderFail "q" []).relevance_label
        (evaluate_relevance testSettings graderFail "q" []).relevance_score
        testSettings.crag_ambiguous_threshold := by
  have he := evaluate_relevance_none testSettings graderFail "q" [] rfl
  rw [he]
  refine ⟨rfl, ?_, ?_⟩
  · show routingRule "ambiguous" (1/2) testSettings.crag_ambiguous_threshold = false
    have ht : testSettings.crag_ambiguous_threshold = 1/2 := rfl
    rw [ht]
    norm_num [routingRule]
    decide
  · show (true : Bool) ≠ routingRule "ambiguous" (1/2) testSettings.crag_ambiguous_threshold
    have ht : testSettings.crag_ambiguous_threshold = 1/2 := rfl
    rw [ht]
    have hr : routingRule "ambiguous" (1/2) (1/2) = false := by
      norm_num [routingRule]
      decide
    rw [hr]
    decide

/-- C2 amended: `needs_web_search` equals the §4.1 routing rule of the
(defaulted) parsed fields whenever the grader response parses, and is the
constant `true` on the fallback path; the fallback can disagree with the
routing rule (see the counterexample), so the invariant holds only on the
successfully-parsed path. -/
theorem needs_web_search_path_characterization (settings : Settings)
    (generate_with_json : String → String → Option GraderFields)
    (query : String) (retrieved_chunks : List RetrievedChunk) :
    (evaluate_relevance settings generate_with_json query retrieved_chunks).needs_web_search =
      (match generate_with_json (gradingPrompt query retrieved_chunks) graderSystemPrompt with
        | some f =>
            routingRule (f.relevance_label.getD "ambiguous") (f.relevance_score.getD (1/2))
              settings.crag_ambiguous_threshold
        | none => true) := by
  cases h : generate_with_json (gradingPrompt query retrieved_chunks) graderSystemPrompt with
  | some f =>
      rw [evaluate_relevance_some settings generate_with_json query retrieved_chunks f h]
  | none =>
      rw [evaluate_relevance_none settings generate_with_json query retrieved_chunks h]
      rfl

/-- C3: whenever the structured completion call (or the parse of its output)
fails, `evaluate_relevance` returns exactly the fallback evaluation with
score 0.5, label `ambiguous`, confidence 0.5 and `needs_web_search = true`;
in the embedding the function is total, so no error ever propagates to the
caller. -/
theorem evaluate_relevance_failure_fallback (settings : Settings)
    (generate_with_json : String → String → Option GraderFields)
    (query : String) (retrieved_chunks : List RetrievedChunk)
    (h : generate_with_json (gradingPrompt query retrieved_chunks) graderSystemPrompt = none) :
    evaluate_relevance settings generate_with_json query retrieved_chunks = fallbackEvaluation ∧
    fallbackEvaluation.relevance_score = 1/2 ∧
    fallbackEvaluation.relevance_label = "ambiguous" ∧
    fallbackEvaluation.confidence = 1/2 ∧
    fallbackEvaluation.needs_web_search = true :=
  ⟨evaluate_relevance_none settings generate_with_json query retrieved_chunks h,
    rfl, rfl, rfl, rfl⟩

/-- Witness for C3 at the always-failing grader double. -/
theorem evaluate_relevance_failure_fallback_witness :
    evaluate_relevance testSettings graderFail "q" [] = fallbackEvaluation ∧
    fallbackEvaluation.relevance_score = 1/2 ∧
    fallbackEvaluation.relevance_label = "ambiguous" ∧
    fallbackEvaluation.confidence = 1/2 ∧
    fallbackEvaluation.needs_web_search = true :=
  evaluate_relevance_failure_fallback testSettings graderFail "q" [] rfl

/-- A grader double returning a partially present structure: only the label
is supplied, score and confidence are missing. -/
def graderPartial : String → String → Option GraderFields :=
  fun _ _ => some
    { relevance_score := none
      relevance_label := some "relevant"
      confidence := none }

/-- C7: when the grader output parses but fields are only partially present,
each missing field is defaulted individually: score to 0.5, label to
`ambiguous`, confidence to 0.7. -/
theorem partial_grader_fields_defaulted (settings : Settings)
    (generate_with_json : String → String → Option GraderFields)
    (query : String) (retrieved_chunks : List RetrievedChunk) (f : GraderFields)
    (h : generate_with_json (gradingPrompt query retrieved_chunks) graderSystemPrompt = some f) :
    (evaluate_relevance settings generate_with_json query retrieved_chunks).relevance_score =
      f.relevance_score.getD (1/2) ∧
    (evaluate_relevance settings generate_with_json query retrieved_chunks).relevance_label =
      f.relevance_label.getD "ambiguous" ∧
    (evaluate_relevance settings generate_with_json query retrieved_chunks).confidence =
      f.confidence.getD (7/10) := by
  rw [evaluate_relevance_some settings generate_with_json query retrieved_chunks f h]
  exact ⟨rfl, rfl, rfl⟩

/-- Witness for C7 at a grader double that omits score and confidence: the
evaluation carries the defaults 0.5 and 0.7 and the supplied label. -/
theorem partial_grader_fields_defaulted_witness :
    (evaluate_relevance testSettings graderPartial "q" []).relevance_score =
      Option.getD none (1/2) ∧
    (evaluate_relevance testSettings graderPartial "q" []).relevance_label =
      Option.getD (some "relevant") "ambiguous" ∧
    (evaluate_relevance testSettings graderPartial "q" []).confidence =
      Option.getD none (7/10) :=
  partial_grader_fields_defaulted testSettings graderPartial "q" []
    { relevance_score := none, relevance_label := some "relevant", confidence := none } rfl

/-- The ambiguous-0.6 grader double routes away from web search under the
default threshold 0.5. -/
theorem graderAmbiguous60_no_web_search :
    (evaluate_relevance testSettings graderAmbiguous60 "q" []).needs_web_search = false := by
  rw [evaluate_relevance_some testSettings graderAmbiguous60 "q" []
    { relevance_score := some (3/5), relevance_label := some "ambiguous",
      confidence := some (9/10) } rfl]
  show routingRule "ambiguous" (3/5) testSettings.crag_ambiguous_threshold = false
  have ht : testSettings.crag_ambiguous_threshold = 1/2 := rfl
  rw [ht]
  norm_num [routingRule]
  decide

/-- A failed grader call routes to web search (the fallback carries
`needs_web_search = true`). -/
theorem graderFail_web_search :
    (evaluate_relevance testSettings graderFail "q" []).needs_web_search = true := by
  rw [evaluate_relevance_none testSettings graderFail "q" [] rfl]
  rfl

/-- C4: every successful `execute_crag` result mirrors the evaluation's
routing decision in `used_web_search` and carries `web_results` exactly when
a web search ran. -/
theorem execute_crag_web_results_invariant (settings : Settings)
    (generate_with_json : String → String → Option GraderFields)
    (web_search : String → Nat → Except String (List WebResult))
    (query : String) (retrieved_chunks : List RetrievedChunk) (r : CRAGResult)
    (h : execute_crag settings generate_with_json web_search query retrieved_chunks = Except.ok r) :
    r.used_web_search = r.evaluation.needs_web_search ∧
    r.web_results.isSome = r.used_web_search := by
  unfold execute_crag at h
  dsimp only at h
  cases hn : (evaluate_relevance settings generate_with_json query retrieved_chunks).needs_web_search with
  | true =>
      simp only [hn, if_true] at h
      cases hw : web_search query 3 with
      | error e =>
          rw [hw] at h
          exact Except.noConfusion h
      | ok ws =>
          rw [hw] at h
          injection h with h2
          subst h2
          exact ⟨hn.symm, rfl⟩
  | false =>
      simp only [hn, Bool.false_eq_true, if_false] at h
      injection h with h2
      subst h2
      exact ⟨hn.symm, rfl⟩

/-- The `execute_crag` outcome for the ambiguous-0.6 grader double: no web
search, no web results. -/
def resultNoSearch : CRAGResult :=
  { used_web_search := false
    evaluation := evaluate_relevance testSettings graderAmbiguous60 "q" []
    retrieved_chunks := []
    web_results := none }

/-- Witness for C4 at a run that routes away from web search. -/
theorem execute_crag_web_results_invariant_witness :
    resultNoSearch.used_web_search = resultNoSearch.evaluation.needs_web_search ∧
    resultNoSearch.web_results.isSome = resultNoSearch.used_web_search :=
  execute_crag_web_results_invariant testSettings graderAmbiguous60 boundProbeSearch "q" []
    resultNoSearch (by
      unfold execute_crag
      dsimp only
      simp [graderAmbiguous60_no_web_search, resultNoSearch])

/-- Modelled from the spec: the configuration surface of §3 and §6, which
lists `max_web_results` (default 3) among the recognized options;
`app/config.py` defines no such field, so this record follows the spec's
words and exists only to compare the claimed configurability against the
code. -/
structure SpecConfiguration where
  ambiguous_threshold : ℚ := 1/2
  relevance_threshold : ℚ := 7/10
  top_k : Nat := 5
  max_web_results : Nat := 3
  answer_max_tokens : Nat := 500
deriving Repr, DecidableEq

/-- C8 counterexample: `execute_crag` passes the literal `3` to the web
search client (`max_results=3`, `crag.py` line 105) — not a configured
`max_web_results`. A bound-recording search double observes bound 3 even
though the spec-modelled configuration sets `max_web_results := 5`, so the
claim that the bound is the configured `max_web_results` is false. -/
theorem web_search_bound_counterexample :
    execute_crag testSettings graderFail boundProbeSearch "q" [] =
      Except.ok { used_web_search := true
                  evaluation := fallbackEvaluation
                  retrieved_chunks := []
                  web_results := some [{ title := "probe", content := "3", source := none }] } ∧
    ({ max_web_results := 5 : SpecConfiguration }).max_web_results = 5 ∧
    toString ({ max_web_results := 5 : SpecConfiguration }).max_web_results ≠ "3" := by
  refine ⟨?_, rfl, by decide⟩
  unfold execute_crag
  dsimp only
  simp [graderFail_web_search, evaluate_relevance_none testSettings graderFail "q" [] rfl,
    boundProbeSearch]
  rfl

/-- C8 amended: whenever `execute_crag` transitions to web search it invokes
the web search client with the bound set to the literal constant 3 — the
code's hardcoded `max_results=3` — independently of every `Settings` value
(no `max_web_results` configuration exists). -/
theorem web_search_bound_constant_three (settings : Settings)
    (generate_with_json : String → String → Option GraderFields)
    (web_search : String → Nat → Except String (List WebResult))
    (query : String) (retrieved_chunks : List RetrievedChunk)
    (h : (evaluate_relevance settings generate_with_json query retrieved_chunks).needs_web_search = true) :
    execute_crag settings generate_with_json web_search query retrieved_chunks =
      (web_search query 3).map (fun ws =>
        { used_web_search := true
          evaluation := evaluate_relevance settings generate_with_json query retrieved_chunks
          retrieved_chunks := retrieved_chunks
          web_results := some ws }) := by
  unfold execute_crag
  dsimp only
  rw [h]
  cases hw : web_search query 3 with
  | error e => simp [Except.map]
  | ok ws => simp [Except.map]

/-- Witness for C8's amended statement at the bound-recording search double:
the recorded bound is 3. -/
theorem web_search_bound_constant_three_witness :
    execute_crag testSettings graderFail boundProbeSearch "q" [] =
      (boundProbeSearch "q" 3).map (fun ws =>
        { used_web_search := true
          evaluation := evaluate_relevance testSettings graderFail "q" []
          retrieved_chunks := []
          web_results := some ws }) :=
  web_search_bound_constant_three testSettings graderFail boundProbeSearch "q" []
    graderFail_web_search

/-- A web-search double that always raises. -/
def failingSearch : String → Nat → Except String (List WebResult) :=
  fun _ _ => Except.error "web search down"

/-- C9: when the evaluation routes to web search and the web search client
raises, `execute_crag` contains no handler: the error propagates to the
caller and no partial result is returned. -/
theorem web_search_error_propagates (settings : Settings)
    (generate_with_json : String → String → Option GraderFields)
    (web_search : String → Nat → Except String (List WebResult))
    (query : String) (retrieved_chunks : List RetrievedChunk) (err : String)
    (h1 : (evaluate_relevance settings generate_with_json query retrieved_chunks).needs_web_search = true)
    (h2 : web_search query 3 = Except.error err) :
    execute_crag settings generate_with_json web_search query retrieved_chunks =
      Except.error err := by
  unfold execute_crag
  dsimp only
  rw [h1, h2]
  rfl

/-- Witness for C9: a failing search double after a fallback evaluation makes
the whole pipeline return the error. -/
theorem web_search_error_propagates_witness :
    execute_crag testSettings graderFail failingSearch "q" [] =
      Except.error "web search down" :=
  web_search_error_propagates testSettings graderFail failingSearch "q" [] "web search down"
    graderFail_web_search rfl

/-- A retrieved chunk used in the concrete witnesses. -/
def sampleChunk : RetrievedChunk :=
  { content := "chunk text", score := 4/5 }

/-- A web result used in the concrete witnesses. -/
def sampleWeb : WebResult :=
  { title := "t", content := "web text", source := none }

/-- An evaluation carrying the label `irrelevant`. -/
def evalIrrelevant : CRAGEvaluation :=
  { relevance_score := 1/5
    relevance_label := "irrelevant"
    confidence := 9/10
    evaluation_method := "llm_grader"
    needs_web_search := true }

/-- An evaluation carrying the label `ambiguous`. -/
def evalAmbiguous : CRAGEvaluation :=
  { relevance_score := 9/20
    relevance_label := "ambiguous"
    confidence := 9/10
    evaluation_method := "llm_grader"
    needs_web_search := true }

/-- C5: with label `irrelevant`, the synthesis prompt is built from web
results alone — it is invariant under replacing `retrieved_chunks` by any
other list (so no chunk text can reach it), the context is exactly the
web-search section, and the context is the empty string when web results are
absent or empty. -/
theorem irrelevant_uses_only_web_results (query : String) (r : CRAGResult)
    (chunks : List RetrievedChunk)
    (h : r.evaluation.relevance_label = "irrelevant") :
    answerPrompt query { r with retrieved_chunks := chunks } = answerPrompt query r ∧
    contextParts r =
      (if truthyWebResults r.web_results then webSearchSection (r.web_results.getD []) else []) ∧
    assembledContext r =
      (if truthyWebResults r.web_results then
        String.intercalate "\n" (webSearchSection (r.web_results.getD []))
      else "") := by
  have hb : (r.evaluation.relevance_label == "irrelevant") = true := by
    rw [h]
    decide
  refine ⟨?_, ?_, ?_⟩
  · unfold answerPrompt assembledContext contextParts
    dsimp only
    simp [hb]
  · unfold contextParts
    simp [hb]
  · unfold assembledContext contextParts
    simp [hb]
    cases ht : truthyWebResults r.web_results with
    | true => simp [ht]
    | false => simp [ht]; rfl

/-- A CRAG result with label `irrelevant`, non-empty retrieved chunks and no
web results. -/
def resultIrrelevantNoWeb : CRAGResult :=
  { used_web_search := true
    evaluation := evalIrrelevant
    retrieved_chunks := [sampleChunk]
    web_results := none }

/-- Witness for C5: an irrelevant-labelled result with non-empty chunks and
no web results has a chunk-independent prompt and an empty context. -/
theorem irrelevant_uses_only_web_results_witness :
    answerPrompt "q" { resultIrrelevantNoWeb with retrieved_chunks := [] } =
      answerPrompt "q" resultIrrelevantNoWeb ∧
    contextParts resultIrrelevantNoWeb =
      (if truthyWebResults resultIrrelevantNoWeb.web_results then
        webSearchSection (resultIrrelevantNoWeb.web_results.getD [])
      else []) ∧
    assembledContext resultIrrelevantNoWeb =
      (if truthyWebResults resultIrrelevantNoWeb.web_results then
        String.intercalate "\n" (webSearchSection (resultIrrelevantNoWeb.web_results.getD []))
      else "") :=
  irrelevant_uses_only_web_results "q" resultIrrelevantNoWeb [] rfl

/-- C6: with label `relevant` or `ambiguous` and a non-empty web-results
list, the context is the retrieved-documents section first, with the
supplementary web section appended exactly when `used_web_search` is true. -/
theorem relevant_ambiguous_chunks_first_web_appended (r : CRAGResult) (ws : List WebResult)
    (h : r.evaluation.relevance_label = "relevant" ∨ r.evaluation.relevance_label = "ambiguous")
    (hws : r.web_results = some ws) (hne : ws ≠ []) :
    contextParts r =
      retrievedDocsSection r.retrieved_chunks ++
        (if r.used_web_search then additionalWebSection ws else []) := by
  have hb : (r.evaluation.relevance_label == "irrelevant") = false := by
    cases h with
    | inl h1 => rw [h1]; decide
    | inr h1 => rw [h1]; decide
  have hemp : ws.isEmpty = false := by
    cases ws with
    | nil => exact absurd rfl hne
    | cons a t => rfl
  unfold contextParts
  rw [hws]
  simp [hb, truthyWebResults, hemp]

/-- A CRAG result with label `ambiguous`, one retrieved chunk, a web search
that ran and one web result. -/
def resultAmbiguousWithWeb : CRAGResult :=
  { used_web_search := true
    evaluation := evalAmbiguous
    retrieved_chunks := [sampleChunk]
    web_results := some [sampleWeb] }

/-- Witness for C6 at a concrete ambiguous result with one web result. -/
theorem relevant_ambiguous_chunks_first_web_appended_witness :
    contextParts resultAmbiguousWithWeb =
      retrievedDocsSection resultAmbiguousWithWeb.retrieved_chunks ++
        (if resultAmbiguousWithWeb.used_web_search then additionalWebSection [sampleWeb]
        else []) :=
  relevant_ambiguous_chunks_first_web_appended resultAmbiguousWithWeb [sampleWeb]
    (Or.inr rfl) rfl (List.cons_ne_nil _ _)

/-- C10: a present-but-empty `web_results` list is treated exactly like an
absent one in both assembly branches: the prompt coincides with the
`web_results := none` prompt; with label `irrelevant` the context is empty,
and with any other label it is the retrieved-documents section alone even
when `used_web_search` is true. -/
theorem empty_web_results_as_absent (query : String) (r : CRAGResult)
    (h : r.web_results = some []) :
    answerPrompt query r = answerPrompt query { r with web_results := none } ∧
    contextParts r = contextParts { r with web_results := none } ∧
    (r.evaluation.relevance_label = "irrelevant" → contextParts r = []) ∧
    (r.evaluation.relevance_label ≠ "irrelevant" →
      contextParts r = retrievedDocsSection r.retrieved_chunks) := by
  have h2 : contextParts r = contextParts { r with web_results := none } := by
    unfold contextParts
    dsimp only
    rw [h]
    simp [truthyWebResults]
  refine ⟨?_, h2, ?_, ?_⟩
  · unfold answerPrompt assembledContext
    rw [h2]
  · intro hl
    have hb : (r.evaluation.relevance_label == "irrelevant") = true := by
      rw [hl]
      decide
    unfold contextParts
    rw [h]
    simp [hb, truthyWebResults]
  · intro hl
    have hb : (r.evaluation.relevance_label == "irrelevant") = false := by
      cases hbe : (r.evaluation.relevance_label == "irrelevant") with
      | true => exact absurd (eq_of_beq hbe) hl
      | false => rfl
    unfold contextParts
    rw [h]
    simp [hb, truthyWebResults]

/-- A CRAG result with label `ambiguous`, a web search that ran but returned
the empty list. -/
def resultAmbiguousEmptyWeb : CRAGResult :=
  { used_web_search := true
    evaluation := evalAmbiguous
    retrieved_chunks := [sampleChunk]
    web_results := some [] }

/-- Witness for C10 at an ambiguous result whose web search returned no
results. -/
theorem empty_web_results_as_absent_witness :
    answerPrompt "q" resultAmbiguousEmptyWeb =
      answerPrompt "q" { resultAmbiguousEmptyWeb with web_results := none } ∧
    contextParts resultAmbiguousEmptyWeb =
      contextParts { resultAmbiguousEmptyWeb with web_results := none } ∧
    (resultAmbiguousEmptyWeb.evaluation.relevance_label = "irrelevant" →
      contextParts resultAmbiguousEmptyWeb = []) ∧
    (resultAmbiguousEmptyWeb.evaluation.relevance_label ≠ "irrelevant" →
      contextParts resultAmbiguousEmptyWeb =
        retrievedDocsSection resultAmbiguousEmptyWeb.retrieved_chunks) :=
  empty_web_results_as_absent "q" resultAmbiguousEmptyWeb rfl
